import Mathlib

/-!
Verification of the board-name lookup, memory display and dark-mode
synchronization of the "About This Mac" replica (src/1.0/mymac.py).

Python strings are modelled as lists of characters (`PyStr`); the
platform-dependent effects of `get_motherboard_name` (the value of
`platform.system()`, the outcome of the `wmic` subprocess call, the outcome
of reading `/sys/class/dmi/id/board_name`) are modelled as an explicit
environment record `Env`.
-/

/-- Python strings, as sequences of characters. -/
abbrev PyStr := List Char

/-- True of the characters that Python's `str.strip()` removes
(the ASCII whitespace characters). -/
def pyIsSpace (c : Char) : Bool :=
  c = ' ' || c = '\t' || c = '\n' || c = '\r' || c = '\x0B' || c = '\x0C'

/-- Python `str.strip()`: remove leading and trailing whitespace. -/
def pyStrip (s : PyStr) : PyStr :=
  ((s.dropWhile pyIsSpace).reverse.dropWhile pyIsSpace).reverse

/-- Helper for `pySplitlines`: split on `\r\n`, `\r` and `\n`,
accumulating the current line in reverse. -/
def splitlinesAux : List Char → List Char → List PyStr
  | [], [] => []
  | [], acc => [acc.reverse]
  | '\r' :: '\n' :: rest, acc => acc.reverse :: splitlinesAux rest []
  | '\r' :: rest, acc => acc.reverse :: splitlinesAux rest []
  | '\n' :: rest, acc => acc.reverse :: splitlinesAux rest []
  | c :: rest, acc => splitlinesAux rest (c :: acc)

/-- Python `str.splitlines()` (restricted to the line endings `\n`, `\r`,
`\r\n` that can occur in the modelled inputs): the list of lines, with no
trailing empty line for input ending in a line break. -/
def pySplitlines (s : PyStr) : List PyStr :=
  splitlinesAux s []

/-- The fallback constant of `get_motherboard_name`. -/
def unknownBoard : PyStr := "Unknown Board".data

/-- The shortening step of `get_motherboard_name`
(`if len(mb_name) > 20: mb_name = mb_name[:20] + "..."`). -/
def shortenBoardName (s : PyStr) : PyStr :=
  if s.length > 20 then s.take 20 ++ "...".data else s

/-- Outcome of the `subprocess.check_output("wmic baseboard get product")`
call on the Windows branch: either the decoded output string (the
`errors="ignore"` decode never raises), or any exception
(command not found, `CalledProcessError`, ...). -/
inductive CmdResult where
  | ok (output : PyStr)
  | error
deriving DecidableEq

/-- Outcome of opening and reading `/sys/class/dmi/id/board_name` on the
Linux branch: the file's content, a `FileNotFoundError` (caught by the
inner handler), or any other exception such as `PermissionError`
(not caught by the inner handler, so it reaches the outer one). -/
inductive FileResult where
  | ok (content : PyStr)
  | fileNotFound
  | otherError
deriving DecidableEq

/-- The platform-dependent effects observed by one call of
`get_motherboard_name`: the value of `platform.system()` and the outcomes
of the two lookup mechanisms (only the one selected by the platform branch
is consulted). -/
structure Env where
  systemName : PyStr
  cmdResult : CmdResult
  fileResult : FileResult
deriving DecidableEq

/-- The non-blank whitespace-stripped lines of the `wmic` output
(`lines = [line.strip() for line in output.splitlines() if line.strip()]`). -/
def wmicLines (output : PyStr) : List PyStr :=
  ((pySplitlines output).map pyStrip).filter (fun l => !l.isEmpty)

/-- The body of `get_motherboard_name`'s `try` block up to (not including)
the shortening step: `.ok mb` is the value of `mb_name` reaching the
shortening, `.error` is an exception propagating to the outer handler.
On Windows: run `wmic`, keep the non-blank stripped output lines, and take
`lines[1]` when `len(lines) > 1`. On Linux: read the pseudo-file and strip
it, `FileNotFoundError` leaving the default in place. On any other
platform: the default `"Unknown Board"`. -/
def lookupBoardName (env : Env) : Except Unit PyStr :=
  if env.systemName = "Windows".data then
    match env.cmdResult with
    | .ok output =>
        let lines := wmicLines output
        if 1 < lines.length then .ok (lines.getD 1 unknownBoard)
        else .ok unknownBoard
    | .error => .error ()
  else if env.systemName = "Linux".data then
    match env.fileResult with
    | .ok content => .ok (pyStrip content)
    | .fileNotFound => .ok unknownBoard
    | .otherError => .error ()
  else
    .ok unknownBoard

/-- The function `get_motherboard_name`: the looked-up name passed through
the shortening step, and `"Unknown Board"` when any exception reaches the
outer `except Exception` handler. -/
def get_motherboard_name (env : Env) : PyStr :=
  match lookupBoardName env with
  | .ok mb_name => shortenBoardName mb_name
  | .error () => unknownBoard

/-- Modelled from the spec: the board-name parse described by
"taking the second line as the value", read literally as the second line
of the command output; to be compared with `lookupBoardName`. -/
def specSecondLine (output : PyStr) : Option PyStr :=
  (pySplitlines output)[1]?

/-- The whole-gigabyte memory figure displayed by both dialogs
(`int(psutil.virtual_memory().total / (1024**3))` with `totalBytes` a
nonnegative integer): division by `1024³` truncated toward zero, i.e. the
floor. (For totals below `2⁵³` bytes the intermediate binary
floating-point quotient is exact enough that `int` of it coincides with
the rational floor modelled here.) -/
def displayedMemoryGB (totalBytes : Nat) : Nat :=
  totalBytes / 1024 ^ 3

/-- Modelled from the spec: "memory size rounded to whole gigabytes" read
as rounding `totalBytes / 1024³` to the nearest integer (halves up); to be
compared with `displayedMemoryGB`. -/
def specNearestGB (totalBytes : Nat) : Nat :=
  (totalBytes + 512 * 1024 ^ 2) / 1024 ^ 3

/-- The observable state of the secondary dialog: its dark-mode flag
(`MoreInfoWindow.__init__` stores the `dark_mode` argument;
widget layout and styling are presentation only and not modelled). -/
structure MoreInfoWindow where
  dark_mode : Bool
deriving DecidableEq

/-- The observable state of the primary dialog: its dark-mode flag. -/
structure AboutThisMac where
  dark_mode : Bool
deriving DecidableEq

/-- The primary dialog at construction:
`self.dark_mode = False  # Start with light mode`. -/
def AboutThisMac.init : AboutThisMac :=
  { dark_mode := false }

/-- The secondary dialog at construction with a given `dark_mode` argument:
`self.dark_mode = dark_mode`. -/
def MoreInfoWindow.init (dark_mode : Bool) : MoreInfoWindow :=
  { dark_mode := dark_mode }

/-- The method `MoreInfoWindow.toggle_dark_mode`: invert the flag, then
emit it on the `dark_mode_changed` signal. The result pairs the new window
state with the emitted value. -/
def MoreInfoWindow.toggle_dark_mode (w : MoreInfoWindow) : MoreInfoWindow × Bool :=
  let d := !w.dark_mode
  ({ w with dark_mode := d }, d)

/-- The slot `AboutThisMac.update_dark_mode`, connected to the child's
`dark_mode_changed` signal: store the received value. -/
def AboutThisMac.update_dark_mode (a : AboutThisMac) (d : Bool) : AboutThisMac :=
  { a with dark_mode := d }

/-- The pair of open dialogs: the primary dialog and the secondary dialog
created by `show_more_info`. -/
abbrev Sys := AboutThisMac × MoreInfoWindow

/-- The method `AboutThisMac.show_more_info`: construct a `MoreInfoWindow`
passing the primary dialog's current flag, and connect its
`dark_mode_changed` signal to `update_dark_mode`. -/
def AboutThisMac.show_more_info (a : AboutThisMac) : Sys :=
  (a, MoreInfoWindow.init a.dark_mode)

/-- One press of the secondary dialog's toggle button: the child runs
`toggle_dark_mode` and the emitted signal value is delivered to the
parent's `update_dark_mode` slot. -/
def pressToggle (s : Sys) : Sys :=
  let r := s.2.toggle_dark_mode
  (s.1.update_dark_mode r.2, r.1)

/-- `n` successive presses of the secondary dialog's toggle button. -/
def pressToggleN : Nat → Sys → Sys
  | 0, s => s
  | n + 1, s => pressToggle (pressToggleN n s)

/-! ## Helper lemmas -/

/-- Shortening never produces a string longer than 23 characters. -/
theorem shortenBoardName_length_le (s : PyStr) :
    (shortenBoardName s).length ≤ 23 := by
  unfold shortenBoardName
  by_cases h : s.length > 20
  · rw [if_pos h, List.length_append, List.length_take,
      Nat.min_eq_left (Nat.le_of_lt h)]
    decide
  · rw [if_neg h]
    omega

/-- Shortening a non-empty string yields a non-empty string. -/
theorem shortenBoardName_ne_nil (s : PyStr) (h : s ≠ []) :
    shortenBoardName s ≠ [] := by
  unfold shortenBoardName
  by_cases hl : s.length > 20
  · rw [if_pos hl]
    simp
  · rwa [if_neg hl]

/-- The shortening step leaves the fallback constant unchanged. -/
theorem shortenBoardName_unknown : shortenBoardName unknownBoard = unknownBoard := by
  decide

/-- The element `lines[1]` selected on the Windows branch is one of the
filtered lines, hence non-blank. -/
theorem wmicLines_getD_ne_nil (output : PyStr)
    (h : 1 < (wmicLines output).length) :
    (wmicLines output).getD 1 unknownBoard ≠ [] := by
  have hget : (wmicLines output).getD 1 unknownBoard = (wmicLines output).get ⟨1, h⟩ := by
    simp [List.getD, List.getElem?_eq_getElem h]
  rw [hget]
  have hmem : (wmicLines output).get ⟨1, h⟩ ∈ wmicLines output := List.get_mem _ _ _
  have hfil := List.of_mem_filter hmem
  simpa using hfil

/-- Evaluation of the lookup on the Windows branch with command output. -/
theorem lookupBoardName_windows_ok (output : PyStr) (fr : FileResult) :
    lookupBoardName ⟨"Windows".data, CmdResult.ok output, fr⟩ =
      if 1 < (wmicLines output).length then
        Except.ok ((wmicLines output).getD 1 unknownBoard)
      else Except.ok unknownBoard := rfl

/-- Evaluation of the lookup on the Windows branch with a failing command. -/
theorem lookupBoardName_windows_err (fr : FileResult) :
    lookupBoardName ⟨"Windows".data, CmdResult.error, fr⟩ = Except.error () := rfl

/-- Evaluation of the lookup on the Linux branch with readable file. -/
theorem lookupBoardName_linux_ok (cmd : CmdResult) (content : PyStr) :
    lookupBoardName ⟨"Linux".data, cmd, FileResult.ok content⟩ =
      Except.ok (pyStrip content) := rfl

/-- Evaluation of the lookup on the Linux branch with a missing file. -/
theorem lookupBoardName_linux_nf (cmd : CmdResult) :
    lookupBoardName ⟨"Linux".data, cmd, FileResult.fileNotFound⟩ =
      Except.ok unknownBoard := rfl

/-- Evaluation of the lookup on the Linux branch with an unreadable file. -/
theorem lookupBoardName_linux_err (cmd : CmdResult) :
    lookupBoardName ⟨"Linux".data, cmd, FileResult.otherError⟩ =
      Except.error () := rfl

/-- Evaluation of the lookup on any other platform branch. -/
theorem lookupBoardName_other (sys : PyStr) (cmd : CmdResult) (fr : FileResult)
    (hw : sys ≠ "Windows".data) (hl : sys ≠ "Linux".data) :
    lookupBoardName ⟨sys, cmd, fr⟩ = Except.ok unknownBoard := by
  simp only [lookupBoardName]
  rw [if_neg hw, if_neg hl]

/-- A successful lookup is returned through the shortening step. -/
theorem get_motherboard_name_ok (env : Env) (mb : PyStr)
    (h : lookupBoardName env = Except.ok mb) :
    get_motherboard_name env = shortenBoardName mb := by
  unfold get_motherboard_name
  rw [h]

/-- An erroring lookup is caught by the outer handler. -/
theorem get_motherboard_name_err (env : Env)
    (h : lookupBoardName env = Except.error ()) :
    get_motherboard_name env = unknownBoard := by
  unfold get_motherboard_name
  rw [h]

/-! ## Claims -/

/-- C1: the shortening step is the identity on strings of length at most 20;
on longer strings it returns the first 20 characters followed by `...`,
a result of length exactly 23. -/
theorem c1_shorten_spec (s : PyStr) :
    (s.length ≤ 20 → shortenBoardName s = s) ∧
    (s.length > 20 →
      shortenBoardName s = s.take 20 ++ "...".data ∧
      (shortenBoardName s).length = 23) := by
  constructor
  · intro h
    simp [shortenBoardName, Nat.not_lt.mpr h]
  · intro h
    have hif : shortenBoardName s = s.take 20 ++ "...".data := by
      simp [shortenBoardName, h]
    refine ⟨hif, ?_⟩
    rw [hif, List.length_append, List.length_take]
    have : min 20 s.length = 20 := Nat.min_eq_left (Nat.le_of_lt h)
    rw [this]
    decide

/-- Witness for C1 at concrete inputs: a short name is unchanged, a long
name is cut to its first 20 characters plus the ellipsis, giving length 23. -/
theorem c1_shorten_spec_witness :
    shortenBoardName "ROG STRIX B550".data = "ROG STRIX B550".data ∧
    shortenBoardName "ABCDEFGHIJKLMNOPQRSTUVWXYZ".data =
      "ABCDEFGHIJKLMNOPQRST".data ++ "...".data ∧
    (shortenBoardName "ABCDEFGHIJKLMNOPQRSTUVWXYZ".data).length = 23 := by
  refine ⟨(c1_shorten_spec "ROG STRIX B550".data).1 (by decide), ?_, ?_⟩
  · have h := ((c1_shorten_spec "ABCDEFGHIJKLMNOPQRSTUVWXYZ".data).2 (by decide)).1
    rw [h]; decide
  · exact ((c1_shorten_spec "ABCDEFGHIJKLMNOPQRSTUVWXYZ".data).2 (by decide)).2

/-- C2, counterexample: a lookup outcome with no usable data (the Linux
pseudo-file reads successfully but is empty) does NOT yield the fallback
constant: `get_motherboard_name` returns the empty string. -/
theorem c2_fallback_counterexample :
    get_motherboard_name ⟨"Linux".data, CmdResult.error, FileResult.ok []⟩ = [] ∧
    get_motherboard_name ⟨"Linux".data, CmdResult.error, FileResult.ok []⟩ ≠
      unknownBoard := by
  decide

/-- C2 as amended: every erroring outcome (Windows command failure, Linux
missing pseudo-file, Linux unreadable pseudo-file such as permission
denied) and a Windows output with fewer than two non-blank lines all map
to the fallback constant `"Unknown Board"`; but a Linux read that succeeds
with whitespace-only content yields the empty string instead of the
fallback. -/
theorem c2_fallback_amended (env : Env) :
    (env.systemName = "Windows".data → env.cmdResult = CmdResult.error →
      get_motherboard_name env = unknownBoard) ∧
    (∀ output, env.systemName = "Windows".data →
      env.cmdResult = CmdResult.ok output → (wmicLines output).length ≤ 1 →
      get_motherboard_name env = unknownBoard) ∧
    (env.systemName = "Linux".data → env.fileResult = FileResult.fileNotFound →
      get_motherboard_name env = unknownBoard) ∧
    (env.systemName = "Linux".data → env.fileResult = FileResult.otherError →
      get_motherboard_name env = unknownBoard) ∧
    (env.systemName ≠ "Windows".data → env.systemName ≠ "Linux".data →
      get_motherboard_name env = unknownBoard) ∧
    (∀ content, env.systemName = "Linux".data →
      env.fileResult = FileResult.ok content → pyStrip content = [] →
      get_motherboard_name env = []) := by
  obtain ⟨sys, cmd, fr⟩ := env
  refine ⟨?_, ?_, ?_, ?_, ?_, ?_⟩
  · intro hsys hcmd
    subst hsys; subst hcmd
    simp [get_motherboard_name, lookupBoardName]
  · intro output hsys hcmd hlen
    subst hsys; subst hcmd
    simp only [get_motherboard_name, lookupBoardName, if_pos rfl]
    rw [if_neg (Nat.not_lt.mpr hlen)]
    exact shortenBoardName_unknown
  · intro hsys hfr
    subst hsys; subst hfr
    simp [get_motherboard_name, lookupBoardName, shortenBoardName_unknown]
  · intro hsys hfr
    subst hsys; subst hfr
    simp [get_motherboard_name, lookupBoardName]
  · intro hw hl
    simp only [get_motherboard_name, lookupBoardName]
    rw [if_neg hw, if_neg hl]
    exact shortenBoardName_unknown
  · intro content hsys hfr hstrip
    subst hsys; subst hfr
    simp [get_motherboard_name, lookupBoardName, hstrip, shortenBoardName]

/-- Witness for C2 as amended, at one concrete environment per clause. -/
theorem c2_fallback_amended_witness :
    get_motherboard_name ⟨"Windows".data, CmdResult.error, FileResult.fileNotFound⟩ =
      unknownBoard ∧
    get_motherboard_name ⟨"Windows".data, CmdResult.ok "Product\r\r\n".data,
      FileResult.fileNotFound⟩ = unknownBoard ∧
    get_motherboard_name ⟨"Linux".data, CmdResult.error, FileResult.fileNotFound⟩ =
      unknownBoard ∧
    get_motherboard_name ⟨"Linux".data, CmdResult.error, FileResult.otherError⟩ =
      unknownBoard ∧
    get_motherboard_name ⟨"Darwin".data, CmdResult.error, FileResult.fileNotFound⟩ =
      unknownBoard ∧
    get_motherboard_name ⟨"Linux".data, CmdResult.error, FileResult.ok " ".data⟩ = [] :=
  ⟨(c2_fallback_amended _).1 rfl rfl,
   (c2_fallback_amended _).2.1 "Product\r\r\n".data rfl rfl (by decide),
   (c2_fallback_amended _).2.2.1 rfl rfl,
   (c2_fallback_amended _).2.2.2.1 rfl rfl,
   (c2_fallback_amended _).2.2.2.2.1 (by decide) (by decide),
   (c2_fallback_amended _).2.2.2.2.2 " ".data rfl rfl (by decide)⟩

/-- C5, counterexample: the parsed Windows board name is not the output's
literal second line. For the output `"Product\nB60 \n"` the second line is
`"B60 "` (with a trailing space), but the parse yields the stripped
`"B60"`; for an output with a blank second line the divergence is even a
different line. -/
theorem c5_second_line_counterexample :
    lookupBoardName ⟨"Windows".data, CmdResult.ok "Product\nB60 \n".data,
      FileResult.fileNotFound⟩ = Except.ok "B60".data ∧
    specSecondLine "Product\nB60 \n".data = some "B60 ".data ∧
    "B60".data ≠ "B60 ".data := by
  refine ⟨by rfl, by rfl, by decide⟩

/-- C5 as amended: on the Windows branch the parsed board name is the
second element of the list of whitespace-stripped non-blank output lines
(not the literal second line); when that list has fewer than two elements
the fallback constant is used. -/
theorem c5_wmic_second_entry (output : PyStr) (fr : FileResult) :
    (∀ h : 1 < (wmicLines output).length,
      lookupBoardName ⟨"Windows".data, CmdResult.ok output, fr⟩ =
        Except.ok ((wmicLines output).get ⟨1, h⟩)) ∧
    ((wmicLines output).length ≤ 1 →
      lookupBoardName ⟨"Windows".data, CmdResult.ok output, fr⟩ =
        Except.ok unknownBoard) := by
  constructor
  · intro h
    rw [lookupBoardName_windows_ok, if_pos h]
    congr 1
    simp [List.getD, List.getElem?_eq_getElem h]
  · intro h
    rw [lookupBoardName_windows_ok, if_neg (Nat.not_lt.mpr h)]

/-- Witness for C5 as amended, on a typical `wmic` output (header line,
value line, trailing blank lines) and on a header-only output. -/
theorem c5_wmic_second_entry_witness :
    lookupBoardName ⟨"Windows".data,
      CmdResult.ok "Product\r\r\nB650M DS3H\r\r\n\r\r\n".data,
      FileResult.fileNotFound⟩ = Except.ok "B650M DS3H".data ∧
    lookupBoardName ⟨"Windows".data, CmdResult.ok "Product\r\r\n".data,
      FileResult.fileNotFound⟩ = Except.ok unknownBoard := by
  constructor
  · have h := (c5_wmic_second_entry "Product\r\r\nB650M DS3H\r\r\n\r\r\n".data
      FileResult.fileNotFound).1 (by decide)
    rw [h]
    congr 1
  · exact (c5_wmic_second_entry "Product\r\r\n".data FileResult.fileNotFound).2
      (by decide)

/-- C6, counterexample: the board-name text used as the primary dialog's
title can be empty: when the Linux pseudo-file reads successfully with
whitespace-only content, `get_motherboard_name` returns the empty string. -/
theorem c6_nonempty_counterexample :
    (get_motherboard_name ⟨"Linux".data, CmdResult.error,
      FileResult.ok "\n".data⟩).isEmpty = true := by
  decide

/-- C6 as amended: the board-name displayed as the primary dialog's title
is non-empty in every lookup outcome on every platform branch, except that
a Linux pseudo-file read succeeding with whitespace-only content yields
the empty string (excluded by the hypothesis). -/
theorem c6_title_nonempty (env : Env)
    (h : ∀ content, env.systemName = "Linux".data →
      env.fileResult = FileResult.ok content → pyStrip content ≠ []) :
    get_motherboard_name env ≠ [] := by
  obtain ⟨sys, cmd, fr⟩ := env
  by_cases hw : sys = "Windows".data
  · subst hw
    cases cmd with
    | ok output =>
        by_cases hl : 1 < (wmicLines output).length
        · rw [get_motherboard_name_ok _ _
            (by rw [lookupBoardName_windows_ok, if_pos hl])]
          exact shortenBoardName_ne_nil _ (wmicLines_getD_ne_nil output hl)
        · rw [get_motherboard_name_ok _ _
            (by rw [lookupBoardName_windows_ok, if_neg hl]),
            shortenBoardName_unknown]
          decide
    | error =>
        rw [get_motherboard_name_err _ (lookupBoardName_windows_err fr)]
        decide
  · by_cases hl : sys = "Linux".data
    · subst hl
      cases fr with
      | ok content =>
          rw [get_motherboard_name_ok _ _ (lookupBoardName_linux_ok cmd content)]
          exact shortenBoardName_ne_nil _ (h content rfl rfl)
      | fileNotFound =>
          rw [get_motherboard_name_ok _ _ (lookupBoardName_linux_nf cmd),
            shortenBoardName_unknown]
          decide
      | otherError =>
          rw [get_motherboard_name_err _ (lookupBoardName_linux_err cmd)]
          decide
    · rw [get_motherboard_name_ok _ _ (lookupBoardName_other sys cmd fr hw hl),
        shortenBoardName_unknown]
      decide

/-- Witness for C6 as amended: on a Linux environment whose pseudo-file
holds a real board name, the displayed title is non-empty. -/
theorem c6_title_nonempty_witness :
    get_motherboard_name ⟨"Linux".data, CmdResult.error,
      FileResult.ok "B650M DS3H\n".data⟩ ≠ [] :=
  c6_title_nonempty _ (by
    intro content _ heq
    injection heq with h2
    subst h2
    decide)

/-- C8: `get_motherboard_name` is total at its public interface — in every
environment (platform identifier, command outcome, file-read outcome,
including the exceptional ones) each error path is caught and mapped to
the fallback constant, and each success path returns the shortened looked
up value; no exception escapes. -/
theorem c8_total (env : Env) :
    (lookupBoardName env = Except.error () ∧
      get_motherboard_name env = unknownBoard) ∨
    (∃ mb_name, lookupBoardName env = Except.ok mb_name ∧
      get_motherboard_name env = shortenBoardName mb_name) := by
  cases h : lookupBoardName env with
  | ok mb => exact Or.inr ⟨mb, rfl, by simp [get_motherboard_name, h]⟩
  | error u => cases u; exact Or.inl ⟨rfl, by simp [get_motherboard_name, h]⟩

/-- C9: in every lookup outcome the returned string has length at most 23;
the fallback constant is itself shorter than 20 characters and passes the
shortening step unchanged. -/
theorem c9_length_bound (env : Env) :
    (get_motherboard_name env).length ≤ 23 ∧
    unknownBoard.length < 20 ∧
    shortenBoardName unknownBoard = unknownBoard := by
  refine ⟨?_, by decide, shortenBoardName_unknown⟩
  unfold get_motherboard_name
  cases lookupBoardName env with
  | ok mb => exact shortenBoardName_length_le mb
  | error u => cases u; decide

/-- C3, counterexample: the displayed memory size is not the nearest whole
number of gigabytes. At a total of `2³¹ − 1` bytes (= 2 GiB − 1 byte,
quotient ≈ 1.9999999991, exactly representable in double precision) the
code displays 1 GB while the nearest integer is 2. -/
theorem c3_memory_counterexample :
    displayedMemoryGB (2 ^ 31 - 1) = 1 ∧
    specNearestGB (2 ^ 31 - 1) = 2 ∧
    displayedMemoryGB (2 ^ 31 - 1) ≠ specNearestGB (2 ^ 31 - 1) := by
  refine ⟨by decide, by decide, by decide⟩

/-- C3 as amended: the displayed memory size equals the total number of
bytes divided by 1024³ rounded DOWN (truncated toward zero), characterized
by the floor inequalities, for every total-memory value. -/
theorem c3_memory_floor (totalBytes : Nat) :
    displayedMemoryGB totalBytes * 1024 ^ 3 ≤ totalBytes ∧
    totalBytes < (displayedMemoryGB totalBytes + 1) * 1024 ^ 3 := by
  unfold displayedMemoryGB
  have h : (1024 : Nat) ^ 3 = 1073741824 := by norm_num
  rw [h]
  omega

/-- After `n` presses starting from a freshly opened secondary dialog, the
whole two-dialog state is determined by the parity of `n`. -/
theorem pressToggleN_synced (b : Bool) (n : Nat) :
    pressToggleN n ((AboutThisMac.mk b).show_more_info) =
      if n % 2 = 0 then ((AboutThisMac.mk b), (MoreInfoWindow.mk b))
      else ((AboutThisMac.mk (!b)), (MoreInfoWindow.mk (!b))) := by
  induction n with
  | zero =>
      simp [pressToggleN, AboutThisMac.show_more_info, MoreInfoWindow.init]
  | succ n ih =>
      rw [pressToggleN, ih]
      by_cases h : n % 2 = 0
      · rw [if_pos h, if_neg (by omega)]
        simp [pressToggle, MoreInfoWindow.toggle_dark_mode,
          AboutThisMac.update_dark_mode]
      · rw [if_neg h, if_pos (by omega)]
        simp [pressToggle, MoreInfoWindow.toggle_dark_mode,
          AboutThisMac.update_dark_mode]

/-- C4: for every initial value `b` of the primary dialog's dark-mode flag
and every number `n` of presses of the secondary dialog's toggle button
(after opening the secondary dialog), the primary dialog's flag equals `b`
when `n` is even and `!b` when `n` is odd. -/
theorem c4_toggle_parity (b : Bool) (n : Nat) :
    (pressToggleN n ((AboutThisMac.mk b).show_more_info)).1.dark_mode =
      if n % 2 = 0 then b else !b := by
  rw [pressToggleN_synced]
  by_cases h : n % 2 = 0
  · rw [if_pos h, if_pos h]
  · rw [if_neg h, if_neg h]

/-- C7: one press of the secondary dialog's toggle button emits exactly the
child's new flag value on the `dark_mode_changed` signal, the parent
stores that same value, and after the press the two dark-mode flags are
equal. -/
theorem c7_one_hop_sync (s : Sys) :
    (s.2.toggle_dark_mode).2 = (s.2.toggle_dark_mode).1.dark_mode ∧
    (pressToggle s).1.dark_mode = (s.2.toggle_dark_mode).2 ∧
    (pressToggle s).1.dark_mode = (pressToggle s).2.dark_mode :=
  ⟨rfl, rfl, rfl⟩

/-- C10: the primary dialog's dark-mode flag is initialized to `false`
(light mode) at construction, and `show_more_info` constructs the
secondary dialog with the primary dialog's current flag value while
leaving the primary dialog unchanged, so the secondary view opens already
matching the primary view's theme. -/
theorem c10_child_opens_synced :
    AboutThisMac.init.dark_mode = false ∧
    ∀ a : AboutThisMac,
      (a.show_more_info).2.dark_mode = a.dark_mode ∧ (a.show_more_info).1 = a :=
  ⟨rfl, fun _ => ⟨rfl, rfl⟩⟩
